import Mathlib

/-!
Verification of the locator-handle / table-handle automation layer
(`string.utils.ts`): a shallow embedding of its string matching, table row
matching, handle state and terminal-action protocol, with theorems checking
the specification's claims against the embedded code.

JavaScript string primitives (`trim`, `toLowerCase`, `includes`, `split`,
`Array.prototype.toString`, `Array.prototype.findIndex`) are modelled over
`List Char` so that every definition evaluates by kernel reduction.
-/

/-- Whitespace as JavaScript `trim` removes it (the characters that occur in
this code base: space, tab, newline, carriage return). -/
def isWsChar (c : Char) : Bool :=
  c == ' ' || c == Char.ofNat 9 || c == Char.ofNat 10 || c == Char.ofNat 13

/-- Model of JavaScript `String.prototype.trim`. -/
def jsTrim (s : String) : String :=
  String.mk (((s.data.dropWhile isWsChar).reverse.dropWhile isWsChar).reverse)

/-- Model of JavaScript `String.prototype.toLowerCase` (per code point). -/
def jsToLower (s : String) : String :=
  String.mk (s.data.map Char.toLower)

/-- Helper for `strIncludes`: does `sub` occur in the list at any offset. -/
def inclAux (sub : List Char) : List Char → Bool
  | [] => sub.isEmpty
  | c :: rest => List.isPrefixOf sub (c :: rest) || inclAux sub rest

/-- Model of JavaScript `s.includes(sub)`. -/
def strIncludes (s sub : String) : Bool :=
  inclAux sub.data s.data

/-- Split a character list at every occurrence of `sep` (JS `split` with a
one-character separator; `"".split(sep)` is `[""]`). -/
def splitCharAux (sep : Char) : List Char → List (List Char)
  | [] => [[]]
  | c :: rest =>
    let r := splitCharAux sep rest
    if c == sep then [] :: r
    else
      match r with
      | [] => [[c]]
      | h :: t => (c :: h) :: t

/-- Model of JavaScript `s.split(sep)` for a one-character separator. -/
def jsSplit (s : String) (sep : Char) : List String :=
  (splitCharAux sep s.data).map String.mk

/-- Join a list of strings with a separator (JS `Array.prototype.join`). -/
def joinWith (sep : String) : List String → String
  | [] => ""
  | [a] => a
  | a :: rest => a ++ sep ++ joinWith sep rest

/-- Model of JavaScript `Array.prototype.toString` (joins with a comma). -/
def jsArrayToString (l : List String) : String :=
  joinWith "," l

/-- Model of JavaScript `Array.prototype.findIndex`: the first index whose
element satisfies `p`, and `-1` when none does. -/
def jsFindIndex {α : Type} (p : α → Bool) : List α → Int
  | [] => -1
  | a :: l =>
    if p a then 0
    else
      let r := jsFindIndex p l
      if r < 0 then -1 else r + 1

/-- The tab character. -/
def tabChar : Char := Char.ofNat 9

/-- The newline character. -/
def nlChar : Char := Char.ofNat 10

/-- The single-quote character. -/
def sqChar : Char := Char.ofNat 39

/-- The single-quote character as a string. -/
def sqStr : String := String.mk [sqChar]

/-! ## Table row matching (`UiTable` methods of `string.utils.ts`)

The cell comparison written inline in `getMatchedRowIndex`,
`getMetaTableMatchedRowIndex`, `getMatchedRowIndices` and
`getHeaderColumnNumber`:
`ele.trim().toLowerCase() === colData.toLowerCase().trim()` and
`ele.trim().toLowerCase().includes(colData.toLowerCase().trim())`. -/

/-- Cell equality test: `ele.trim().toLowerCase() === colData.toLowerCase().trim()`. -/
def cellEq (ele colData : String) : Bool :=
  jsToLower (jsTrim ele) == jsTrim (jsToLower colData)

/-- Cell containment test: `ele.trim().toLowerCase().includes(colData.toLowerCase().trim())`. -/
def cellHas (ele colData : String) : Bool :=
  strIncludes (jsToLower (jsTrim ele)) (jsTrim (jsToLower colData))

/-- Target normalisation of `getMatchedRowIndex`/`getMatchedRowIndices`
(lines 699-701, 729-731):
`ele.trim().includes("'") ? ele.trim().split("'")[1] : ele.trim()`. -/
def normalizeTarget (ele : String) : String :=
  if strIncludes (jsTrim ele) sqStr then (jsSplit (jsTrim ele) sqChar).getD 1 ""
  else jsTrim ele

/-- Row-text splitting of the singular matchers (lines 705-706, 770-771):
`tableData.toString().split('\t').join('').split('\n')`. -/
def splitRowText (tableData : List String) : List String :=
  jsSplit (joinWith "" (jsSplit (jsArrayToString tableData) tabChar)) nlChar

/-- What `locator(_locator).nth(index).allInnerTexts()` yields when the row
texts under the current scope are `rows`: a one-element list for an index in
range, and the empty list for an index past the matched set. -/
def rowTextsAt (rows : List String) (index : Nat) : List String :=
  match rows.get? index with
  | some t => [t]
  | none => []

/-- The row predicate of `getMatchedRowIndex` (lines 711-720) and
`getMetaTableMatchedRowIndex` (lines 776-792).  Note the substring branch:
the source tests `findIndex(ele => !ele...includes(colData...)) >= 0` and
fails the row when ANY cell does not contain the target. -/
def matchRowIndexPred (exactMatch : Bool) (rowValues rowText : List String) : Bool :=
  rowValues.all fun colData =>
    if exactMatch then
      if jsFindIndex (fun ele => cellEq ele colData) rowText < 0 then false else true
    else
      if jsFindIndex (fun ele => !(cellHas ele colData)) rowText ≥ 0 then false else true

/-- Embedding of `getMatchedRowIndex(rowValues, options)` (lines 695-724).
`rows` is the list of per-row aggregate inner texts under the current scope,
in document order; the `locator` option is abstracted into the enumeration of
`rows` and `exactMatch` defaults to `false` at the call sites modelled here. -/
def getMatchedRowIndex (rows rowValues : List String) (exactMatch : Bool) : Int :=
  let targets := rowValues.map normalizeTarget
  let arr := ((List.range rows.length).map
      (fun index => splitRowText (rowTextsAt rows index))).filter
      (fun rowData => rowData.length > 1)
  let rowIndex := jsFindIndex (matchRowIndexPred exactMatch targets) arr
  if rowIndex ≥ 0 then rowIndex else -1

/-- Embedding of `getMetaTableMatchedRowIndex(rowValues, options)` (lines
760-795): identical pipeline except that targets are only trimmed (line 765),
with the same inverted substring branch (line 785). -/
def getMetaTableMatchedRowIndex (rows rowValues : List String) (exactMatch : Bool) : Int :=
  let targets := rowValues.map jsTrim
  let arr := ((List.range rows.length).map
      (fun index => splitRowText (rowTextsAt rows index))).filter
      (fun rowData => rowData.length > 1)
  let rowIndex := jsFindIndex (matchRowIndexPred exactMatch targets) arr
  if rowIndex ≥ 0 then rowIndex else -1

/-- The row predicate of `getMatchedRowIndices` (lines 737-750): here BOTH
branches use the direct `findIndex(...) < 0` test, so each target must be
matched by at least one cell. -/
def matchRowIndicesPred (exactMatch : Bool) (rowValues rowTextArr : List String) : Bool :=
  rowValues.all fun colData =>
    if exactMatch then
      if jsFindIndex (fun ele => cellEq ele colData) rowTextArr < 0 then false else true
    else
      if jsFindIndex (fun ele => cellHas ele colData) rowTextArr < 0 then false else true

/-- Embedding of `getMatchedRowIndices(rowValues, options)` (lines 726-758).
`scopeCount` is `(await this.getElement()).count()` — the number of elements
matching the handle's own selector (line 733), NOT the number of rows — and
the loop reads row `index` for `index < scopeCount`.  Row text is split on
newlines only (line 736; no tab removal, no cell-count filter). -/
def getMatchedRowIndices (scopeCount : Nat) (rows rowValues : List String)
    (exactMatch : Bool) : List Nat :=
  let targets := rowValues.map normalizeTarget
  (List.range scopeCount).foldl
    (fun foundIndices index =>
      if matchRowIndicesPred exactMatch targets
          (jsSplit (jsArrayToString (rowTextsAt rows index)) nlChar) then
        foundIndices ++ [index]
      else foundIndices)
    []

/-- Embedding of `getHeaderColumnNumber(colName, exactMatch)` (lines 642-650):
exact mode compares `ele.trim() === colName.trim()` (case-SENSITIVE), default
mode compares `ele.trim().toLowerCase() === colName.trim().toLowerCase()`
(case-insensitive EQUALITY, not containment). -/
def getHeaderColumnNumber (headers : List String) (colName : String)
    (exactMatch : Bool) : Int :=
  if exactMatch then
    jsFindIndex (fun ele => jsTrim ele == jsTrim colName) headers
  else
    jsFindIndex (fun ele => jsToLower (jsTrim ele) == jsToLower (jsTrim colName)) headers

/-- The header comparison of `getHeaderColumnNumber`, named for the
characterisation theorem. -/
def headerPredicate (exactMatch : Bool) (colName ele : String) : Bool :=
  if exactMatch then jsTrim ele == jsTrim colName
  else jsToLower (jsTrim ele) == jsToLower (jsTrim colName)

/-! ## Spec-side reference definitions

These follow the specification's words (spec.md sections 4.2 and 8), for
comparison with the embedded code. -/

/-- Reference row-match predicate as the specification states it (spec §4.2
step 3): a row matches when, for every target value, AT LEAST ONE cell
satisfies the comparison (exact equality or substring containment, trimmed
and case-insensitive). -/
def specRowMatches (exactMatch : Bool) (targets cells : List String) : Bool :=
  targets.all fun t => cells.any fun c => if exactMatch then cellEq c t else cellHas c t

/-- Reference `getMatchedRowIndex` following the specification: the code's
pipeline with the specification's at-least-one-cell match predicate. -/
def specGetMatchedRowIndex (rows rowValues : List String) (exactMatch : Bool) : Int :=
  let targets := rowValues.map normalizeTarget
  let arr := ((List.range rows.length).map
      (fun index => splitRowText (rowTextsAt rows index))).filter
      (fun rowData => rowData.length > 1)
  jsFindIndex (specRowMatches exactMatch targets) arr

/-- Reference `getMatchedRowIndices` as claim C4 states it: every 0-based
POST-FILTER row position (rows whose split cell sequence has more than one
entry) whose row matches, in ascending order. -/
def specMatchedRowIndices (rows rowValues : List String) (exactMatch : Bool) : List Nat :=
  let targets := rowValues.map normalizeTarget
  let arr := ((List.range rows.length).map
      (fun index => splitRowText (rowTextsAt rows index))).filter
      (fun rowData => rowData.length > 1)
  (List.range arr.length).filter (fun i => specRowMatches exactMatch targets (arr.getD i []))

/-- Reference `getHeaderColumnNumber` as claim C5 states it: exact mode is
trimmed case-insensitive equality, default mode is trimmed case-insensitive
substring containment. -/
def getHeaderColumnNumberSpec (headers : List String) (colName : String)
    (exactMatch : Bool) : Int :=
  if exactMatch then
    jsFindIndex (fun ele => jsToLower (jsTrim ele) == jsToLower (jsTrim colName)) headers
  else
    jsFindIndex (fun ele => strIncludes (jsToLower (jsTrim ele)) (jsToLower (jsTrim colName))) headers

/-! ## The element-handle model (`UiActions` / `UiElement` of `string.utils.ts`)

An element is abstracted to an identifier; the automation engine (Playwright)
is a record of functions: the match set of a selector string, an element's
computed CSS/XPath path, its attributes and its inner text.  The source spells
the helper pair `setCssAndXpath`/`clearFullCssAndXPath` with both `Xpath` and
`XPath` casings at different call sites (and `fullXpath`/`fullXPath` for the
field); the embedding uses one name for each, as the repository clearly
intends one method and one field. -/

/-- An abstract DOM element identifier. -/
abbrev Elem := Nat

/-- The automation-engine interface the handle layer calls into.
`cssValueOf e p` is the computed-style value of property `p` on `e` (a
property the browser does not report is the empty string). -/
structure Env where
  cssPath : Elem → String
  xPath : Elem → String
  matchesOf : String → List Elem
  attr : Elem → String → Option String
  innerText : Elem → String
  visible : Elem → Bool
  enabled : Elem → Bool
  cssValueOf : Elem → String → String

/-- The mutable fields of `UiActions` that the embedded operations touch. -/
structure UiState where
  locator : String
  fullCss : String
  fullXpath : String
  objectDescriptor : String
  isPopupExist : Bool
  pageIndex : Nat
  tempLocators : List Elem
deriving DecidableEq, Repr

/-- The `UiActions` constructor (lines 57-66): `fullCss` starts as the
locator, options default to `false`, `0` and `"object - "`.  The field
`tempLocators`, declared without an initialiser in the source, is modelled
as the empty buffer. -/
def mkUiActions (locator : String) (description : Option String)
    (isPopup : Option Bool) (pageIndex : Option Nat) : UiState :=
  { locator := locator
    fullCss := locator
    fullXpath := ""
    objectDescriptor := description.getD "object - "
    isPopupExist := isPopup.getD false
    pageIndex := pageIndex.getD 0
    tempLocators := [] }

/-- The `UiElement` subclass constructor (lines 454-456) passes its options
through to `UiActions` unchanged. -/
def mkUiElement (locator : String) (description : Option String) : UiState :=
  mkUiActions locator description none none

/-- `getLocator` (lines 351-354): the base locator while `fullCss` still
equals it, the narrowed `fullCss` otherwise. -/
def getLocator (s : UiState) : String :=
  if s.fullCss == s.locator then s.locator else s.fullCss

/-- `clearFullCssAndXPath` (lines 236-241): reset `fullCss` to the base
locator and `fullXpath` to the empty string. -/
def clearFullCssAndXPath (s : UiState) : UiState :=
  { s with fullCss := s.locator, fullXpath := "" }

/-- `setCssAndXpath(element)` (lines 135-139): store the engine-computed CSS
and XPath paths of the resolved element. -/
def setCssAndXpath (env : Env) (s : UiState) (e : Elem) : UiState :=
  { s with fullCss := env.cssPath e, fullXpath := env.xPath e }

/-- The match set of the handle's current effective selector
(`page.locator(await this.getLocator())`). -/
def matchSet (env : Env) (s : UiState) : List Elem :=
  env.matchesOf (getLocator s)

/-- `.nth(i)` on a match set (the engine's zero-based selection). -/
def nthOf (l : List Elem) (i : Nat) : Elem :=
  l.getD i 0

/-- `.first()` on a match set. -/
def firstOf (l : List Elem) : Elem :=
  l.getD 0 0

/-- The chaining (narrowing) operations claim C1 quantifies over.  Each one
resolves an element and stores its computed paths via `setCssAndXpath`,
returning the same handle.  `find`'s broken `nthObj` tail (lines 377-380,
which reads the never-assigned `tempLocator` field) is not modelled. -/
inductive NarrowOp where
  | find (locator : String) (index : Nat) (hasText : Option String)
  | getNth (index : Nat)
  | contains (containsText : String) (index : Nat)
  | hasText (containsText : String) (exactMatch : Bool) (index : Nat)
  | getSibling (locator : String) (nthElement : Nat)
  | getRow (index : Nat) (rowLocator : String)
  | getTable (index : Nat)
  | getColumnHasText (cellValue : String)
deriving DecidableEq, Repr

/-- The element a narrowing operation resolves, per the source call sites:
`find` resolves `"<scope> <locator>"` (or a text-filtered child set),
`getNth`/`getTable` take the nth of the current set, `contains`/`hasText`/
`getColumnHasText` filter by inner text, `getSibling` resolves through the
parent, `getRow` resolves `"<scope> <rowLocator>"`. -/
def narrowTarget (env : Env) (s : UiState) : NarrowOp → Elem
  | .find locator index hasText =>
    match hasText with
    | none => nthOf (env.matchesOf (getLocator s ++ " " ++ locator)) index
    | some t =>
      nthOf ((env.matchesOf (getLocator s ++ " " ++ locator)).filter
        (fun e => strIncludes (env.innerText e) t)) index
  | .getNth index => nthOf (matchSet env s) index
  | .contains containsText index =>
    nthOf ((matchSet env s).filter (fun e => strIncludes (env.innerText e) containsText)) index
  | .hasText containsText exactMatch index =>
    nthOf ((matchSet env s).filter
      (fun e => if exactMatch then env.innerText e == containsText
                else strIncludes (env.innerText e) containsText)) index
  | .getSibling locator nthElement =>
    nthOf (env.matchesOf (getLocator s ++ " xpath=.. " ++ locator)) nthElement
  | .getRow index rowLocator => nthOf (env.matchesOf (getLocator s ++ " " ++ rowLocator)) index
  | .getTable index => nthOf (matchSet env s) index
  | .getColumnHasText cellValue =>
    nthOf ((env.matchesOf (getLocator s ++ " td")).filter
      (fun e => strIncludes (env.innerText e) cellValue)) 0

/-- Apply one narrowing operation: resolve its element and store the
computed paths (every such method ends in `setCssAndXpath` and `return this`). -/
def applyNarrow (env : Env) (s : UiState) (op : NarrowOp) : UiState :=
  setCssAndXpath env s (narrowTarget env s op)

/-- Apply a whole chain of narrowing operations in order. -/
def applyChain (env : Env) (s : UiState) (ops : List NarrowOp) : UiState :=
  ops.foldl (applyNarrow env) s

/-- The primitive automation-engine calls a terminal action performs
(element resolution and readiness waits are not actions). -/
inductive EngineCall where
  | attrRead (e : Elem) (name : String)
  | checkCall (e : Elem) (force : Bool)
  | uncheckCall (e : Elem) (force : Bool)
  | clickCall (e : Elem) (force : Bool)
  | dblclickCall (e : Elem) (force : Bool)
  | clearCall (e : Elem) (force : Bool)
  | fillCall (e : Elem) (value : String)
  | typeCall (e : Elem) (value : String)
  | pressSeqCall (e : Elem) (value : String)
  | pressCall (e : Elem) (key : String)
  | countCall (selector : String)
  | innerTextCall (e : Elem)
  | queryCall (selector : String)
  | focusCall (e : Elem)
  | selectTextCall (e : Elem) (option : String)
  | selectIndexCall (e : Elem) (indexOf : Int)
  | visibleCall (e : Elem)
  | enabledCall (e : Elem)
  | cssEvalCall (e : Elem)
deriving DecidableEq, Repr

/-- What one terminal action produced: the handle state afterwards, the log
lines emitted, and the engine calls performed, in order. -/
structure ActionResult where
  state : UiState
  logs : List String
  calls : List EngineCall
deriving DecidableEq, Repr

/-- `click(options)` (lines 412-420): `objIndex` defaults to 0, click the
nth element, log, then clear. -/
def click (env : Env) (s : UiState) (objIndex : Option Nat) (force : Option Bool) :
    ActionResult :=
  let _objIndex := objIndex.getD 0
  let _force := force.getD false
  let obj := nthOf (matchSet env s) _objIndex
  { state := clearFullCssAndXPath s
    logs := ["Clicked on the " ++ s.objectDescriptor ++ " [" ++ Nat.repr _objIndex ++ "]"]
    calls := [.clickCall obj _force] }

/-- `getText(index)` (lines 262-269): `-1` (the default) reads the first
element; read, clear, log, return the text. -/
def getText (env : Env) (s : UiState) (index : Int) : String × ActionResult :=
  let _index : Nat := if index == -1 then 0 else index.toNat
  let obj := nthOf (matchSet env s) _index
  (env.innerText obj,
    { state := clearFullCssAndXPath s
      logs := ["Getting text from " ++ s.objectDescriptor]
      calls := [.innerTextCall obj] })

/-- `getCount()` (lines 190-195): the size of the current match set, then
clear. -/
def getCount (env : Env) (s : UiState) : Nat × ActionResult :=
  ((matchSet env s).length,
    { state := clearFullCssAndXPath s
      logs := []
      calls := [.countCall (getLocator s)] })

/-- The value-masking log fragment shared by `setValue`, `type` and
`pressSequentially`:
`this.objectDescriptor.toLowerCase().includes('password') ? '******' : inputString`. -/
def maskedValue (objectDescriptor inputString : String) : String :=
  if strIncludes (jsToLower objectDescriptor) "password" then "******" else inputString

/-- `setValue(inputString, options)` (lines 521-531): clear the field, fill
it, optionally press a key, log (masking the value for a password
descriptor), then clear the handle. -/
def setValue (env : Env) (s : UiState) (inputString : String)
    (keyPress : Option String) (force : Option Bool) : ActionResult :=
  let _force := force.getD false
  let obj := firstOf (matchSet env s)
  { state := clearFullCssAndXPath s
    logs := [s.objectDescriptor ++ " - set the value: "
      ++ maskedValue s.objectDescriptor inputString]
    calls := [.clearCall obj false, .fillCall obj inputString]
      ++ (match keyPress with | some k => [.pressCall obj k] | none => []) }

/-- `type(inputString, options)` (lines 533-542): type the string,
optionally press a key, log with the same masking, then clear. -/
def typeIntoField (env : Env) (s : UiState) (inputString : String)
    (keyPress : Option String) : ActionResult :=
  let obj := firstOf (matchSet env s)
  { state := clearFullCssAndXPath s
    logs := [s.objectDescriptor ++ " - typed the value: "
      ++ maskedValue s.objectDescriptor inputString]
    calls := [.typeCall obj inputString]
      ++ (match keyPress with | some k => [.pressCall obj k] | none => []) }

/-- `pressSequentially(inputString, options)` (lines 544-553): same shape as
`type` with the `pressSequentially` primitive. -/
def pressSequentially (env : Env) (s : UiState) (inputString : String)
    (keyPress : Option String) : ActionResult :=
  let obj := firstOf (matchSet env s)
  { state := clearFullCssAndXPath s
    logs := [s.objectDescriptor ++ " - pressed sequentially: "
      ++ maskedValue s.objectDescriptor inputString]
    calls := [.pressSeqCall obj inputString]
      ++ (match keyPress with | some k => [.pressCall obj k] | none => []) }

/-- `dblClick(options)` (lines 422-430): like `click` with the double-click
primitive — log, then clear. -/
def dblClick (env : Env) (s : UiState) (objIndex : Option Nat) (force : Option Bool) :
    ActionResult :=
  let _objIndex := objIndex.getD 0
  let _force := force.getD false
  let obj := nthOf (matchSet env s) _objIndex
  { state := clearFullCssAndXPath s
    logs := ["Double-clicked on the " ++ s.objectDescriptor ++ " [" ++ Nat.repr _objIndex ++ "]"]
    calls := [.dblclickCall obj _force] }

/-- `clear(option)` (lines 403-410): resolve the current element, store its
engine-computed CSS and XPath paths via `setCssAndXpath`, perform the engine
clear and return the handle.  This terminal NEVER calls
`clearFullCssAndXPath`: it is the one terminal action that does not reset
the handle.  (Quirk kept from the source's
`option?.force === undefined ? false : true`: any PROVIDED force value,
even `false`, becomes `true`.) -/
def clear (env : Env) (s : UiState) (force : Option Bool) : ActionResult :=
  let _force := match force with | some _ => true | none => false
  let ele := firstOf (matchSet env s)
  { state := setCssAndXpath env s ele
    logs := []
    calls := [.clearCall ele _force] }

/-- `selectListOptionsByText(option)` (lines 555-560): select the option by
visible text, log, then clear. -/
def selectListOptionsByText (env : Env) (s : UiState) (option : String) : ActionResult :=
  let obj := firstOf (matchSet env s)
  { state := clearFullCssAndXPath s
    logs := [s.objectDescriptor ++ " - selected the option: " ++ option]
    calls := [.selectTextCall obj option] }

/-- `selectListOptionByIndex(indexOf)` (lines 562-567): select the option by
position, log, then clear. -/
def selectListOptionByIndex (env : Env) (s : UiState) (indexOf : Int) : ActionResult :=
  let obj := firstOf (matchSet env s)
  { state := clearFullCssAndXPath s
    logs := [s.objectDescriptor ++ " - selected the option index: " ++ Int.repr indexOf]
    calls := [.selectIndexCall obj indexOf] }

/-- `getPropertyValue(property, options)` (lines 211-218): focus the
element, read the attribute of the nth match (a `null` result becomes the
empty string), then clear. -/
def getPropertyValue (env : Env) (s : UiState) (property : String)
    (index : Option Nat) : String × ActionResult :=
  let _index := index.getD 0
  let obj := nthOf (matchSet env s) _index
  let prpVal := env.attr obj property
  (prpVal.getD "",
    { state := clearFullCssAndXPath s
      logs := []
      calls := [.focusCall (firstOf (matchSet env s)), .attrRead obj property] })

/-- `getCss(cssValue)` (lines 330-349): read the computed-style value of the
resolved element, clear the handle, and return the value — or
`"Invalid property"` when it is empty. -/
def getCss (env : Env) (s : UiState) (cssValue : String) : String × ActionResult :=
  let locatorE := firstOf (matchSet env s)
  let v := env.cssValueOf locatorE cssValue
  ((if v ≠ "" then v else "Invalid property"),
    { state := clearFullCssAndXPath s
      logs := []
      calls := [.cssEvalCall locatorE] })

/-- `isVisible()` (lines 302-307): the engine visibility test, then clear. -/
def isVisible (env : Env) (s : UiState) : Bool × ActionResult :=
  let obj := firstOf (matchSet env s)
  (env.visible obj,
    { state := clearFullCssAndXPath s
      logs := []
      calls := [.visibleCall obj] })

/-- `isEnabled()` (lines 295-300): the engine enabled test, then clear. -/
def isEnabled (env : Env) (s : UiState) : Bool × ActionResult :=
  let obj := firstOf (matchSet env s)
  (env.enabled obj,
    { state := clearFullCssAndXPath s
      logs := []
      calls := [.enabledCall obj] })

/-- JavaScript truthiness of a `getAttribute` result: `null` and the empty
string are falsy, every other string is truthy. -/
def jsTruthyAttr : Option String → Bool
  | none => false
  | some v => !(v == "")

/-- The `_objIndex` computation of `check`/`uncheck` (lines 491, 508):
`options?.objIndex?.valueOf() !== undefined ? -1 : options?.objIndex` — a
PROVIDED index is replaced by `-1`, an absent one stays `undefined`. -/
def checkMappedIndex : Option Int → Option Int
  | some _ => some (-1)
  | none => none

/-- JavaScript `x > -1` where `x` may be `undefined` (`undefined > -1` is
`false`). -/
def jsGtNeg1 : Option Int → Bool
  | some i => decide (i > -1)
  | none => false

/-- The element `check`/`uncheck` act on (lines 494, 510):
`_objIndex > -1 ? ...nth(_objIndex) : ...first()`. -/
def checkTarget (env : Env) (s : UiState) (objIndex : Option Int) : Elem :=
  if jsGtNeg1 (checkMappedIndex objIndex) then
    nthOf (matchSet env s) ((checkMappedIndex objIndex).getD 0).toNat
  else firstOf (matchSet env s)

/-- The skip log suffix of `check` (line 500). -/
def checkSkipSuffix : String :=
  " - unable to check the checkbox, it" ++ sqStr ++ "s disabled"

/-- The skip log suffix of `uncheck` (line 516). -/
def uncheckSkipSuffix : String :=
  " - unable to uncheck the checkbox, it" ++ sqStr ++ "s disabled"

/-- `check(options)` (lines 489-504): read the target's `disabled`
attribute; when falsy, perform the check and log it; when truthy, only log
the skip.  Either way the handle is cleared and no error is raised. -/
def check (env : Env) (s : UiState) (objIndex : Option Int) (force : Option Bool) :
    ActionResult :=
  let _force := force.getD false
  let obj := checkTarget env s objIndex
  let flag := env.attr obj "disabled"
  if !(jsTruthyAttr flag) then
    { state := clearFullCssAndXPath s
      logs := [s.objectDescriptor ++ " - checked the checkbox"]
      calls := [.attrRead obj "disabled", .checkCall obj _force] }
  else
    { state := clearFullCssAndXPath s
      logs := [s.objectDescriptor ++ checkSkipSuffix]
      calls := [.attrRead obj "disabled"] }

/-- `uncheck(options)` (lines 506-519): the same protocol with the uncheck
primitive. -/
def uncheck (env : Env) (s : UiState) (objIndex : Option Int) (force : Option Bool) :
    ActionResult :=
  let _force := force.getD false
  let obj := checkTarget env s objIndex
  let flag := env.attr obj "disabled"
  if !(jsTruthyAttr flag) then
    { state := clearFullCssAndXPath s
      logs := [s.objectDescriptor ++ " - unchecked the checkbox"]
      calls := [.attrRead obj "disabled", .uncheckCall obj _force] }
  else
    { state := clearFullCssAndXPath s
      logs := [s.objectDescriptor ++ uncheckSkipSuffix]
      calls := [.attrRead obj "disabled"] }

/-- `isExist()` (lines 284-293): wait, clear the handle, then test
`page.$(locator) != null` — the query returns `null` for a selector with no
match, it does not raise. -/
def isExist (env : Env) (s : UiState) : Bool × UiState :=
  let s1 := clearFullCssAndXPath s
  ((env.matchesOf (getLocator s1)).head?.isSome, s1)

/-- `getRowsLength(options)` (lines 668-674): existence check first, row
count only when the table root exists, `0` otherwise. -/
def getRowsLength (env : Env) (s : UiState) (rowLocator : String) : Nat × UiState :=
  let e := isExist env s
  let length := if e.1 then (env.matchesOf (getLocator e.2 ++ " " ++ rowLocator)).length else 0
  (length, clearFullCssAndXPath e.2)

/-- Map with the element's position, as `Array.prototype.map((loc, index) => ...)`. -/
def mapWithIndex {α β : Type} (f : Nat → α → β) : Nat → List α → List β
  | _, [] => []
  | i, a :: as => f i a :: mapWithIndex f (i + 1) as

/-- `getAllObjects(options)` of `UiElement` (lines 458-477): the resolved
match set is PUSHED onto the shared `tempLocators` buffer (never cleared),
then one fresh `UiElement` is built per buffer entry, with the entry's
computed CSS path as its locator and the indexed description
`"<description> [<i>]"`.  Returns the handles and the handle's own state
afterwards (its buffer now holds the accumulated locators). -/
def getAllObjects (env : Env) (s : UiState) (hasText : Option String) :
    List UiState × UiState :=
  let arrayLocators := match hasText with
    | none => matchSet env s
    | some t => (env.matchesOf (getLocator s ++ " " ++ s.locator)).filter
        (fun e => strIncludes (env.innerText e) t)
  let temp := s.tempLocators ++ arrayLocators
  let uiElements := mapWithIndex
    (fun index loc => mkUiElement (env.cssPath loc)
      (some (s.objectDescriptor ++ " [" ++ Nat.repr index ++ "]"))) 0 temp
  (uiElements, { s with tempLocators := temp })

/-- The terminal actions claim C1 quantifies over: the full list of spec
section 4.2 — `click`, `dblClick`, `check`, `uncheck`, `clear`, `setValue`,
`type`, `pressSequentially`, `selectListOptionsByText`,
`selectListOptionByIndex`, `getText`, `getPropertyValue`, `getCss`,
`isVisible`, `isEnabled`, `isExist` and `getCount`. -/
inductive TerminalOp where
  | clickOp (objIndex : Option Nat) (force : Option Bool)
  | dblClickOp (objIndex : Option Nat) (force : Option Bool)
  | checkOp (objIndex : Option Int) (force : Option Bool)
  | uncheckOp (objIndex : Option Int) (force : Option Bool)
  | clearOp (force : Option Bool)
  | setValueOp (inputString : String) (keyPress : Option String) (force : Option Bool)
  | typeOp (inputString : String) (keyPress : Option String)
  | pressSequentiallyOp (inputString : String) (keyPress : Option String)
  | selectListOptionsByTextOp (option : String)
  | selectListOptionByIndexOp (indexOf : Int)
  | getTextOp (index : Int)
  | getPropertyValueOp (property : String) (index : Option Nat)
  | getCssOp (cssValue : String)
  | isVisibleOp
  | isEnabledOp
  | isExistOp
  | getCountOp
deriving DecidableEq, Repr

/-- The handle state after a terminal action. -/
def applyTerminal (env : Env) (s : UiState) : TerminalOp → UiState
  | .clickOp objIndex force => (click env s objIndex force).state
  | .dblClickOp objIndex force => (dblClick env s objIndex force).state
  | .checkOp objIndex force => (check env s objIndex force).state
  | .uncheckOp objIndex force => (uncheck env s objIndex force).state
  | .clearOp force => (clear env s force).state
  | .setValueOp v kp force => (setValue env s v kp force).state
  | .typeOp v kp => (typeIntoField env s v kp).state
  | .pressSequentiallyOp v kp => (pressSequentially env s v kp).state
  | .selectListOptionsByTextOp option => (selectListOptionsByText env s option).state
  | .selectListOptionByIndexOp indexOf => (selectListOptionByIndex env s indexOf).state
  | .getTextOp index => (getText env s index).2.state
  | .getPropertyValueOp property index => (getPropertyValue env s property index).2.state
  | .getCssOp cssValue => (getCss env s cssValue).2.state
  | .isVisibleOp => (isVisible env s).2.state
  | .isEnabledOp => (isEnabled env s).2.state
  | .isExistOp => (isExist env s).2
  | .getCountOp => (getCount env s).2.state

/-! ## Concrete engine instances for the closed theorems -/

/-- A four-match scope: elements 1-4 match every selector. -/
def envFour : Env :=
  { cssPath := fun e => "css=" ++ Nat.repr e
    xPath := fun e => "xp=" ++ Nat.repr e
    matchesOf := fun _ => [1, 2, 3, 4]
    attr := fun _ _ => none
    innerText := fun _ => ""
    visible := fun _ => true
    enabled := fun _ => true
    cssValueOf := fun _ _ => "" }

/-- A scope whose single element carries a truthy `disabled` attribute. -/
def envDisabled : Env :=
  { cssPath := fun e => "css=" ++ Nat.repr e
    xPath := fun e => "xp=" ++ Nat.repr e
    matchesOf := fun _ => [7]
    attr := fun _ name => if name == "disabled" then some "true" else none
    innerText := fun _ => ""
    visible := fun _ => true
    enabled := fun _ => true
    cssValueOf := fun _ _ => "" }

/-- A scope whose single element has no `disabled` attribute. -/
def envEnabled : Env :=
  { cssPath := fun e => "css=" ++ Nat.repr e
    xPath := fun e => "xp=" ++ Nat.repr e
    matchesOf := fun _ => [7]
    attr := fun _ _ => none
    innerText := fun _ => ""
    visible := fun _ => true
    enabled := fun _ => true
    cssValueOf := fun _ _ => "" }

/-- An engine where no selector matches anything. -/
def envEmpty : Env :=
  { cssPath := fun _ => ""
    xPath := fun _ => ""
    matchesOf := fun _ => []
    attr := fun _ _ => none
    innerText := fun _ => ""
    visible := fun _ => true
    enabled := fun _ => true
    cssValueOf := fun _ _ => "" }

/-- A demonstration handle. -/
def demoHandle : UiState :=
  mkUiElement "#demo" (some "demo object")

/-- A demonstration password-field handle. -/
def passwordHandle : UiState :=
  mkUiElement "#pwd" (some "Password input")

/-- A demonstration table handle. -/
def tableHandle : UiState :=
  mkUiElement "#table" (some "demo table")


/-! ## General lemmas about the embedded primitives -/

theorem jsFindIndex_branch {α : Type} (p : α → Bool) (l : List α) :
    (if jsFindIndex p l < 0 then false else true) = l.any p := by
  induction l with
  | nil => simp [jsFindIndex]
  | cons a l ih =>
    by_cases h : p a = true
    · simp [jsFindIndex, h]
    · simp only [Bool.not_eq_true] at h
      simp only [jsFindIndex, h, Bool.false_eq_true, if_false, List.any_cons, Bool.false_or]
      by_cases h2 : jsFindIndex p l < 0
      · rw [if_pos h2] at ih ⊢
        simpa using ih
      · rw [if_neg h2] at ih
        rw [if_neg h2]
        have : ¬ (jsFindIndex p l + 1 < 0) := by omega
        rw [if_neg this]
        exact ih

theorem jsFindIndex_spec {α : Type} (p : α → Bool) (l : List α) :
    (jsFindIndex p l = -1 ∧ ∀ x ∈ l, p x = false) ∨
    (∃ i : Nat, jsFindIndex p l = (i : Int) ∧
      (∃ x, l.get? i = some x ∧ p x = true) ∧
      ∀ j, j < i → ∀ y, l.get? j = some y → p y = false) := by
  induction l with
  | nil => exact Or.inl ⟨rfl, by simp⟩
  | cons a l ih =>
    by_cases h : p a = true
    · refine Or.inr ⟨0, by simp [jsFindIndex, h], ⟨a, rfl, h⟩, ?_⟩
      intro j hj
      omega
    · simp only [Bool.not_eq_true] at h
      rcases ih with ⟨h1, h2⟩ | ⟨i, hi, ⟨x, hx, hpx⟩, hbef⟩
      · refine Or.inl ⟨?_, ?_⟩
        · simp [jsFindIndex, h, h1]
        · intro x hx
          rcases List.mem_cons.mp hx with rfl | hmem
          · exact h
          · exact h2 x hmem
      · refine Or.inr ⟨i + 1, ?_, ⟨x, by simpa using hx, hpx⟩, ?_⟩
        · have hnonneg : ¬ ((i : Int) < 0) := by omega
          simp only [jsFindIndex, h, Bool.false_eq_true, if_false, hi]
          rw [if_neg hnonneg]
          omega
        · intro j hj y hy
          cases j with
          | zero =>
            simp only [List.get?] at hy
            cases hy
            exact h
          | succ j =>
            exact hbef j (by omega) y (by simpa using hy)

theorem foldl_push_eq_filter {α : Type} (p : α → Bool) (l : List α) :
    ∀ acc : List α,
      l.foldl (fun acc a => if p a then acc ++ [a] else acc) acc = acc ++ l.filter p := by
  induction l with
  | nil => intro acc; simp
  | cons a l ih =>
    intro acc
    by_cases h : p a = true
    · simp [List.foldl_cons, h, ih, List.filter_cons]
    · simp only [Bool.not_eq_true] at h
      simp [List.foldl_cons, h, ih, List.filter_cons]

theorem matchRowIndicesPred_eq_all_any (exactMatch : Bool) (rowValues cells : List String) :
    matchRowIndicesPred exactMatch rowValues cells
      = rowValues.all (fun t =>
          cells.any (fun c => if exactMatch then cellEq c t else cellHas c t)) := by
  unfold matchRowIndicesPred
  congr 1
  funext colData
  cases exactMatch with
  | false =>
    simpa using jsFindIndex_branch (fun ele => cellHas ele colData) cells
  | true =>
    simpa using jsFindIndex_branch (fun ele => cellEq ele colData) cells

theorem getMatchedRowIndices_eq_filter (scopeCount : Nat) (rows rowValues : List String)
    (exactMatch : Bool) :
    getMatchedRowIndices scopeCount rows rowValues exactMatch
      = (List.range scopeCount).filter
          (fun index => matchRowIndicesPred exactMatch (rowValues.map normalizeTarget)
            (jsSplit (jsArrayToString (rowTextsAt rows index)) nlChar)) := by
  unfold getMatchedRowIndices
  simpa using foldl_push_eq_filter
    (fun index => matchRowIndicesPred exactMatch (rowValues.map normalizeTarget)
      (jsSplit (jsArrayToString (rowTextsAt rows index)) nlChar))
    (List.range scopeCount) []

theorem check_state_clears (env : Env) (s : UiState) (objIndex : Option Int)
    (force : Option Bool) :
    (check env s objIndex force).state = clearFullCssAndXPath s := by
  unfold check
  dsimp only
  split <;> rfl

theorem uncheck_state_clears (env : Env) (s : UiState) (objIndex : Option Int)
    (force : Option Bool) :
    (uncheck env s objIndex force).state = clearFullCssAndXPath s := by
  unfold uncheck
  dsimp only
  split <;> rfl

theorem applyChain_locator (env : Env) (ops : List NarrowOp) :
    ∀ s : UiState, (applyChain env s ops).locator = s.locator := by
  induction ops with
  | nil => intro s; rfl
  | cons op ops ih =>
    intro s
    simpa [applyChain, List.foldl_cons] using ih (applyNarrow env s op)

/-! ## The claims -/

/-- C1 counterexample: the terminal action `clear` (spec 4.2 lists it among
the terminals) does NOT reset the handle — it stores the resolved element's
engine-computed CSS and XPath paths via `setCssAndXpath` and never calls
`clearFullCssAndXPath` — so after a chain ending in `clear` the effective
locator differs from the base locator and the effective XPath is not empty,
refuting the claim's universal quantification over terminal actions. -/
theorem C1_counterexample :
    (applyTerminal envFour (applyChain envFour demoHandle [])
        (TerminalOp.clearOp none)).fullCss
      ≠ (applyTerminal envFour (applyChain envFour demoHandle [])
          (TerminalOp.clearOp none)).locator ∧
    (applyTerminal envFour (applyChain envFour demoHandle [])
        (TerminalOp.clearOp none)).fullXpath ≠ "" := by
  decide

/-- C1 (amended): for every chain of narrowing operations followed by any
terminal action OTHER THAN `clear`, immediately after the terminal action
the handle's effective locator (`fullCss`) equals its base locator
(`locator`) — which no narrowing operation ever changed — and its effective
XPath (`fullXpath`) is the empty string: every such terminal action ends in
`clearFullCssAndXPath`.  The one exception, `clear`, instead leaves the
resolved element's computed paths on the handle (see `C1_counterexample`). -/
theorem C1_reset_invariant_amended (env : Env) (s : UiState) (ops : List NarrowOp)
    (t : TerminalOp) (hnotclear : ∀ force, t ≠ TerminalOp.clearOp force) :
    (applyTerminal env (applyChain env s ops) t).fullCss
      = (applyTerminal env (applyChain env s ops) t).locator ∧
    (applyTerminal env (applyChain env s ops) t).locator = s.locator ∧
    (applyTerminal env (applyChain env s ops) t).fullXpath = "" := by
  have hloc := applyChain_locator env ops s
  cases t
  case clearOp force => exact absurd rfl (hnotclear force)
  all_goals
    simp [applyTerminal, click, dblClick, getText, getCount, setValue, typeIntoField,
      pressSequentially, selectListOptionsByText, selectListOptionByIndex,
      getPropertyValue, getCss, isVisible, isEnabled, isExist,
      check_state_clears, uncheck_state_clears, clearFullCssAndXPath, hloc]

/-- C1 witness: the amended reset invariant at a concrete non-clear terminal
(`click` with default options) after an empty chain on the demonstration
handle. -/
theorem C1_witness :
    (applyTerminal envFour (applyChain envFour demoHandle [])
        (TerminalOp.clickOp none none)).fullCss
      = (applyTerminal envFour (applyChain envFour demoHandle [])
          (TerminalOp.clickOp none none)).locator ∧
    (applyTerminal envFour (applyChain envFour demoHandle [])
        (TerminalOp.clickOp none none)).locator = demoHandle.locator ∧
    (applyTerminal envFour (applyChain envFour demoHandle [])
        (TerminalOp.clickOp none none)).fullXpath = "" :=
  C1_reset_invariant_amended envFour demoHandle [] (TerminalOp.clickOp none none)
    (fun _ h => nomatch h)

/-- C2 (code evaluation at the failing input): under the code's substring
branch a row matches only when EVERY cell contains each target, so the row
`["Alice", "30"]` does not match target `["30"]` and both singular matchers
return `-1`, while the specification's at-least-one-cell predicate matches
the row. -/
theorem C2_substring_inverted_eval :
    matchRowIndexPred false ["30"] ["Alice", "30"] = false ∧
    specRowMatches false ["30"] ["Alice", "30"] = true ∧
    getMatchedRowIndex ["Alice\n30", "Bob\n30"] ["30"] false = -1 ∧
    getMetaTableMatchedRowIndex ["Alice\n30", "Bob\n30"] ["30"] false = -1 ∧
    getMatchedRowIndex ["Alice\n30", "Bob\n30"] ["Bob", "30"] true = 1 := by
  decide

/-- C3 (code evaluation at the claimed scenario): on the 3-row table (1-cell
header, `["Alice","30"]`, `["Bob","30"]`) the code's `getMatchedRowIndex`
with targets `["30"]` in substring mode returns `-1`, not the claimed `0`;
the same pipeline with the specification's at-least-one-cell predicate
returns `0` (the header row is discarded before indexing, as claimed). -/
theorem C3_scenario_eval :
    getMatchedRowIndex ["Header", "Alice\n30", "Bob\n30"] ["30"] false = -1 ∧
    specGetMatchedRowIndex ["Header", "Alice\n30", "Bob\n30"] ["30"] false = 0 := by
  decide

/-- C4 counterexample: with two rows whose texts are `"Hdr30"` (a single
cell) and `"Alice\n30"` and a scope-element count of 2, the code returns the
raw positions `[0, 1]` for target `["30"]` in substring mode, while the
claimed post-filter behaviour yields `[0]` (the single-cell row discarded). -/
theorem C4_counterexample :
    getMatchedRowIndices 2 ["Hdr30", "Alice\n30"] ["30"] false = [0, 1] ∧
    specMatchedRowIndices ["Hdr30", "Alice\n30"] ["30"] false = [0] := by
  decide

/-- C4 (amended): `getMatchedRowIndices` returns, in strictly ascending
order, exactly the RAW row positions `i` below the scope-element count whose
newline-split row text matches every (quote-normalised) target — by equality
of some cell in exact mode, by containment in some cell in substring mode —
with no cell-count filter; each row is tested independently in one
left-to-right scan. -/
theorem C4_row_indices_characterization (scopeCount : Nat)
    (rows rowValues : List String) (exactMatch : Bool) :
    List.Pairwise (· < ·) (getMatchedRowIndices scopeCount rows rowValues exactMatch) ∧
    ∀ i, i ∈ getMatchedRowIndices scopeCount rows rowValues exactMatch ↔
      (i < scopeCount ∧
        (rowValues.map normalizeTarget).all
          (fun t => (jsSplit (jsArrayToString (rowTextsAt rows i)) nlChar).any
            (fun c => if exactMatch then cellEq c t else cellHas c t)) = true) := by
  rw [getMatchedRowIndices_eq_filter]
  constructor
  · exact List.Pairwise.sublist (List.filter_sublist _) (List.pairwise_lt_range scopeCount)
  · intro i
    rw [List.mem_filter, List.mem_range, matchRowIndicesPred_eq_all_any]

/-- C5 counterexample: the claim's default-mode containment and exact-mode
case-insensitivity both fail on the code: header `"Full Name"` is not found
for name `"Name"` in default mode (the code compares case-insensitive
EQUALITY), and header `"NAME"` is not found for name `"name"` in exact mode
(the code compares case-SENSITIVELY), while the claim's reading finds index
0 in both cases. -/
theorem C5_counterexample :
    getHeaderColumnNumber ["Full Name"] "Name" false = -1 ∧
    getHeaderColumnNumberSpec ["Full Name"] "Name" false = 0 ∧
    getHeaderColumnNumber ["NAME"] "name" true = -1 ∧
    getHeaderColumnNumberSpec ["NAME"] "name" true = 0 := by
  decide

/-- C5 (amended): `getHeaderColumnNumber` returns `-1` exactly when no
header satisfies the comparison, and otherwise the 0-based index of the
FIRST header satisfying it, where exact mode is trimmed case-sensitive
equality and default mode is trimmed case-insensitive equality. -/
theorem C5_header_column_characterization (headers : List String) (colName : String)
    (exactMatch : Bool) :
    (getHeaderColumnNumber headers colName exactMatch = -1 ∧
      ∀ h ∈ headers, headerPredicate exactMatch colName h = false) ∨
    (∃ i : Nat, getHeaderColumnNumber headers colName exactMatch = (i : Int) ∧
      (∃ x, headers.get? i = some x ∧ headerPredicate exactMatch colName x = true) ∧
      ∀ j, j < i → ∀ y, headers.get? j = some y → headerPredicate exactMatch colName y = false) := by
  cases exactMatch with
  | false =>
    simpa [getHeaderColumnNumber, headerPredicate] using
      jsFindIndex_spec (fun ele => jsToLower (jsTrim ele) == jsToLower (jsTrim colName)) headers
  | true =>
    simpa [getHeaderColumnNumber, headerPredicate] using
      jsFindIndex_spec (fun ele => jsTrim ele == jsTrim colName) headers

/-- C6: when the target element's `disabled` attribute is truthy, `check`
and `uncheck` perform zero automation calls beyond the attribute read and
log the skip (a soft no-op, no error: every path is a normal return); when
the attribute is absent or falsy they perform exactly one underlying
check/uncheck call after the read. -/
theorem C6_disabled_soft_noop (env : Env) (s : UiState) (objIndex : Option Int)
    (force : Option Bool) :
    (jsTruthyAttr (env.attr (checkTarget env s objIndex) "disabled") = true →
      (check env s objIndex force).calls
          = [EngineCall.attrRead (checkTarget env s objIndex) "disabled"] ∧
      (check env s objIndex force).logs = [s.objectDescriptor ++ checkSkipSuffix] ∧
      (uncheck env s objIndex force).calls
          = [EngineCall.attrRead (checkTarget env s objIndex) "disabled"] ∧
      (uncheck env s objIndex force).logs = [s.objectDescriptor ++ uncheckSkipSuffix]) ∧
    (jsTruthyAttr (env.attr (checkTarget env s objIndex) "disabled") = false →
      (check env s objIndex force).calls
          = [EngineCall.attrRead (checkTarget env s objIndex) "disabled",
             EngineCall.checkCall (checkTarget env s objIndex) (force.getD false)] ∧
      (uncheck env s objIndex force).calls
          = [EngineCall.attrRead (checkTarget env s objIndex) "disabled",
             EngineCall.uncheckCall (checkTarget env s objIndex) (force.getD false)]) := by
  constructor <;> intro h <;> simp [check, uncheck, h]

/-- C6 witness: a disabled checkbox (element 7, attribute `"true"`) yields
only the attribute read plus the skip log; an enabled one yields the read
followed by exactly one check/uncheck call. -/
theorem C6_witness :
    ((check envDisabled demoHandle none none).calls = [EngineCall.attrRead 7 "disabled"] ∧
     (check envDisabled demoHandle none none).logs = ["demo object" ++ checkSkipSuffix] ∧
     (uncheck envDisabled demoHandle none none).calls = [EngineCall.attrRead 7 "disabled"] ∧
     (uncheck envDisabled demoHandle none none).logs = ["demo object" ++ uncheckSkipSuffix]) ∧
    ((check envEnabled demoHandle none none).calls
        = [EngineCall.attrRead 7 "disabled", EngineCall.checkCall 7 false] ∧
     (uncheck envEnabled demoHandle none none).calls
        = [EngineCall.attrRead 7 "disabled", EngineCall.uncheckCall 7 false]) :=
  ⟨(C6_disabled_soft_noop envDisabled demoHandle none none).1 (by decide),
   (C6_disabled_soft_noop envEnabled demoHandle none none).2 (by decide)⟩

/-- C7 counterexample: on a 4-match scope a first `getAllObjects` call
returns 4 handles, but a second call on the same handle returns 8 — the
resolved locators accumulate in the shared `tempLocators` buffer — so the
claim's "exactly n handles ... across two successive calls" fails. -/
theorem C7_counterexample :
    ((getAllObjects envFour demoHandle none).1).length = 4 ∧
    ((getAllObjects envFour (getAllObjects envFour demoHandle none).2 none).1).length = 8 := by
  decide

theorem mapWithIndex_length {α β : Type} (f : Nat → α → β) :
    ∀ (k : Nat) (l : List α), (mapWithIndex f k l).length = l.length := by
  intro k l
  induction l generalizing k with
  | nil => rfl
  | cons a l ih => simp [mapWithIndex, ih]

theorem mapWithIndex_get? {α β : Type} (f : Nat → α → β) :
    ∀ (k : Nat) (l : List α) (i : Nat),
      (mapWithIndex f k l).get? i = (l.get? i).map (f (k + i)) := by
  intro k l
  induction l generalizing k with
  | nil => intro i; simp [mapWithIndex]
  | cons a l ih =>
    intro i
    cases i with
    | zero => simp [mapWithIndex]
    | succ i =>
      have h := ih (k + 1) i
      have harg : k + 1 + i = k + (i + 1) := by omega
      rw [harg] at h
      simpa [mapWithIndex] using h

/-- C7 (amended): on a handle whose accumulation buffer is empty,
`getAllObjects` returns exactly one handle per matched element, the `i`-th
being a fresh independent `UiElement` whose locator is the engine-computed
CSS path of the `i`-th match and whose description is the base description
suffixed with `" [i]"`; a second call on the same handle returns twice as
many handles, because the match set is appended to the shared, never-cleared
`tempLocators` buffer. -/
theorem C7_fanout_fresh (env : Env) (s : UiState) (hbuf : s.tempLocators = []) :
    ((getAllObjects env s none).1).length = (matchSet env s).length ∧
    (∀ i e, (matchSet env s).get? i = some e →
      ((getAllObjects env s none).1).get? i
        = some (mkUiElement (env.cssPath e)
            (some (s.objectDescriptor ++ " [" ++ Nat.repr i ++ "]")))) ∧
    ((getAllObjects env (getAllObjects env s none).2 none).1).length
      = 2 * (matchSet env s).length := by
  have hm : (getAllObjects env s none).1
      = mapWithIndex (fun index loc => mkUiElement (env.cssPath loc)
          (some (s.objectDescriptor ++ " [" ++ Nat.repr index ++ "]"))) 0 (matchSet env s) := by
    unfold getAllObjects
    dsimp only
    rw [hbuf, List.nil_append]
  have hst : (getAllObjects env s none).2 = { s with tempLocators := matchSet env s } := by
    unfold getAllObjects
    dsimp only
    rw [hbuf, List.nil_append]
  refine ⟨?_, ?_, ?_⟩
  · rw [hm, mapWithIndex_length]
  · intro i e he
    rw [hm, mapWithIndex_get?, he]
    simp
  · rw [hst]
    unfold getAllObjects
    dsimp only
    rw [mapWithIndex_length]
    have hsame : matchSet env { s with tempLocators := matchSet env s } = matchSet env s := rfl
    rw [hsame, List.length_append, Nat.two_mul]

/-- C7 witness: the fan-out theorem applied to the concrete 4-match scope:
4 handles, the third being the fresh `UiElement` for element 3 with
description `"demo object [2]"`; the four descriptions are pairwise
distinct. -/
theorem C7_witness :
    ((getAllObjects envFour demoHandle none).1).length = 4 ∧
    ((getAllObjects envFour demoHandle none).1).get? 2
      = some (mkUiElement "css=3" (some "demo object [2]")) ∧
    (((getAllObjects envFour demoHandle none).1).map UiState.objectDescriptor).Nodup :=
  ⟨(C7_fanout_fresh envFour demoHandle rfl).1,
   by simpa using (C7_fanout_fresh envFour demoHandle rfl).2.1 2 3 rfl,
   by decide⟩

/-- C8: the log line of every value-entering terminal action (`setValue`,
`type`, `pressSequentially`) masks the input with the fixed marker `******`
whenever the handle's description contains `password` case-insensitively —
so two runs differing only in the value log identically — and contains the
input value verbatim otherwise. -/
theorem C8_password_masking (env : Env) (s : UiState) (v1 v2 : String)
    (keyPress : Option String) (force : Option Bool) :
    (strIncludes (jsToLower s.objectDescriptor) "password" = true →
      (setValue env s v1 keyPress force).logs = (setValue env s v2 keyPress force).logs ∧
      (typeIntoField env s v1 keyPress).logs = (typeIntoField env s v2 keyPress).logs ∧
      (pressSequentially env s v1 keyPress).logs = (pressSequentially env s v2 keyPress).logs ∧
      (∃ a b, (setValue env s v1 keyPress force).logs = [a ++ "******" ++ b]) ∧
      (∃ a b, (typeIntoField env s v1 keyPress).logs = [a ++ "******" ++ b]) ∧
      (∃ a b, (pressSequentially env s v1 keyPress).logs = [a ++ "******" ++ b])) ∧
    (strIncludes (jsToLower s.objectDescriptor) "password" = false →
      (∃ a b, (setValue env s v1 keyPress force).logs = [a ++ v1 ++ b]) ∧
      (∃ a b, (typeIntoField env s v1 keyPress).logs = [a ++ v1 ++ b]) ∧
      (∃ a b, (pressSequentially env s v1 keyPress).logs = [a ++ v1 ++ b])) := by
  constructor <;> intro h
  · refine ⟨?_, ?_, ?_, ?_, ?_, ?_⟩
    · simp [setValue, maskedValue, h]
    · simp [typeIntoField, maskedValue, h]
    · simp [pressSequentially, maskedValue, h]
    · exact ⟨s.objectDescriptor ++ " - set the value: ", "",
        by simp [setValue, maskedValue, h]⟩
    · exact ⟨s.objectDescriptor ++ " - typed the value: ", "",
        by simp [typeIntoField, maskedValue, h]⟩
    · exact ⟨s.objectDescriptor ++ " - pressed sequentially: ", "",
        by simp [pressSequentially, maskedValue, h]⟩
  · refine ⟨?_, ?_, ?_⟩
    · exact ⟨s.objectDescriptor ++ " - set the value: ", "",
        by simp [setValue, maskedValue, h]⟩
    · exact ⟨s.objectDescriptor ++ " - typed the value: ", "",
        by simp [typeIntoField, maskedValue, h]⟩
    · exact ⟨s.objectDescriptor ++ " - pressed sequentially: ", "",
        by simp [pressSequentially, maskedValue, h]⟩

/-- C8 witness: on the password-described handle the logs of two different
secrets coincide and carry the marker; on a plain handle the log carries
the value. -/
theorem C8_witness :
    ((setValue envFour passwordHandle "secret1" none none).logs
        = (setValue envFour passwordHandle "secret2" none none).logs ∧
     (typeIntoField envFour passwordHandle "secret1" none).logs
        = (typeIntoField envFour passwordHandle "secret2" none).logs ∧
     (pressSequentially envFour passwordHandle "secret1" none).logs
        = (pressSequentially envFour passwordHandle "secret2" none).logs ∧
     (∃ a b, (setValue envFour passwordHandle "secret1" none none).logs
        = [a ++ "******" ++ b]) ∧
     (∃ a b, (typeIntoField envFour passwordHandle "secret1" none).logs
        = [a ++ "******" ++ b]) ∧
     (∃ a b, (pressSequentially envFour passwordHandle "secret1" none).logs
        = [a ++ "******" ++ b])) ∧
    ((∃ a b, (setValue envFour demoHandle "hello" none none).logs = [a ++ "hello" ++ b]) ∧
     (∃ a b, (typeIntoField envFour demoHandle "hello" none).logs = [a ++ "hello" ++ b]) ∧
     (∃ a b, (pressSequentially envFour demoHandle "hello" none).logs
        = [a ++ "hello" ++ b])) :=
  ⟨(C8_password_masking envFour passwordHandle "secret1" "secret2" none none).1 (by decide),
   (C8_password_masking envFour demoHandle "hello" "x" none none).2 (by decide)⟩

/-- C9: for a selector with zero matching elements, `isExist` returns
`false` (the underlying `page.$` query yields `null`, it does not raise),
`getCount` returns `0`, and `getRowsLength` returns `0` because its
existence check precedes the row count. -/
theorem C9_zero_match_safe (env : Env) (s : UiState) (rowLocator : String)
    (hempty : env.matchesOf s.locator = []) (hfresh : s.fullCss = s.locator) :
    (isExist env s).1 = false ∧ (getCount env s).1 = 0 ∧
    (getRowsLength env s rowLocator).1 = 0 := by
  have hloc : getLocator s = s.locator := by simp [getLocator, hfresh]
  have hclear : getLocator (clearFullCssAndXPath s) = s.locator := by
    simp [getLocator, clearFullCssAndXPath]
  refine ⟨?_, ?_, ?_⟩
  · simp [isExist, hclear, hempty]
  · simp [getCount, matchSet, hloc, hempty]
  · simp [getRowsLength, isExist, hclear, hempty]

/-- C9 witness: the zero-match guarantees at a concrete empty engine. -/
theorem C9_witness :
    (isExist envEmpty demoHandle).1 = false ∧ (getCount envEmpty demoHandle).1 = 0 ∧
    (getRowsLength envEmpty demoHandle "tr").1 = 0 :=
  C9_zero_match_safe envEmpty demoHandle "tr" rfl rfl

/-- C10: `check` and `uncheck` always act on the first element of the match
set: the source maps a provided `objIndex` to `-1` and an absent one to
`undefined`, both of which fail the `> -1` test that would select the nth
element, so the call records always start with the attribute read of the
first element. -/
theorem C10_objIndex_never_honored (env : Env) (s : UiState) (objIndex : Option Int)
    (force : Option Bool) :
    jsGtNeg1 (checkMappedIndex objIndex) = false ∧
    checkTarget env s objIndex = firstOf (matchSet env s) ∧
    (check env s objIndex force).calls.head?
      = some (EngineCall.attrRead (firstOf (matchSet env s)) "disabled") ∧
    (uncheck env s objIndex force).calls.head?
      = some (EngineCall.attrRead (firstOf (matchSet env s)) "disabled") := by
  have h1 : jsGtNeg1 (checkMappedIndex objIndex) = false := by
    cases objIndex <;> simp [checkMappedIndex, jsGtNeg1]
  have h2 : checkTarget env s objIndex = firstOf (matchSet env s) := by
    simp [checkTarget, h1]
  refine ⟨h1, h2, ?_, ?_⟩
  · unfold check
    dsimp only
    split <;> simp [h2]
  · unfold uncheck
    dsimp only
    split <;> simp [h2]
